import Mathlib

/-!
Verification of the scene-skill resolution and dispatch logic.

The definitions below are a shallow embedding of
`src/private_assistant_scene_skill/models.py` and
`src/private_assistant_scene_skill/scene_skill.py`.
Python dictionaries with string keys and values are modelled as
association lists; JSON values produced by the external `json.loads`
are modelled by the inductive `Json`; the outcome of `json.loads` on a
string attribute is part of the input (the external parser is a
collaborator, not code of this repository).
-/

namespace SceneSkill

/-- A Python `dict[str, str]` (one device action), as an association list. -/
abbrev Action := List (String × String)

/-- A JSON-like Python value, as stored in the device attribute bag. -/
inductive Json where
  | null : Json
  | bool (b : Bool) : Json
  | num (n : Int) : Json
  | str (s : String) : Json
  | arr (xs : List Json) : Json
  | obj (kvs : List (String × Json)) : Json

/-- The value of `device_attributes.get("device_actions")`.
`pystr s loads` is a Python string `s` together with the result of
`json.loads s` (`none` when parsing raises); by convention a top-level
Python string is always represented with `pystr`, never with
`pyval (Json.str s)`. -/
inductive AttrVal where
  | absent : AttrVal
  | pystr (s : String) (loads : Option Json) : AttrVal
  | pyval (j : Json) : AttrVal

/-- A record of the global device registry, projected to the fields the
skill reads: `name`, `room.name` (when a room is attached), and the
`device_actions` entry of the attribute bag. -/
structure GlobalDevice where
  name : String
  room : Option String
  deviceActions : AttrVal

/-- Skill-specific device representation (`models.SceneDevice`). -/
structure SceneDevice where
  name : String
  room : Option String
  device_actions : List Action
deriving DecidableEq

/-- Parameters extracted from an intent (`scene_skill.Parameters`). -/
structure Parameters where
  scene_names : List String := []
  targets : List SceneDevice := []
  rooms : List String := []
deriving DecidableEq

/-- One MQTT publish issued by the dispatcher; `qos = 1` is the
acknowledged, at-least-once delivery level used by the code. -/
structure Publish where
  topic : String
  payload : String
  qos : Nat
deriving DecidableEq

/-- Maximum allowed MQTT topic length (`MAX_TOPIC_LENGTH = 128`). -/
def maxTopicLength : Nat := 128

/-- Characters matched by the `\s` class of Python regular expressions
on `str` (Unicode whitespace). -/
def pyRegexSpace (c : Char) : Bool :=
  c == ' ' || c == '\t' || c == '\n' || c == '\x0b' || c == '\x0c' || c == '\r' ||
  c == '\x1c' || c == '\x1d' || c == '\x1e' || c == '\x1f' || c == '\x85' || c == '\xa0' ||
  c == '\u1680' || ('\u2000' ≤ c && c ≤ '\u200a') || c == '\u2028' || c == '\u2029' ||
  c == '\u202f' || c == '\u205f' || c == '\u3000'

/-- Characters of the class `[\$#\+\s\0-\31]` of `MQTT_TOPIC_REGEX`
(octal `\31` is the code point 0x19). -/
def forbiddenChar (c : Char) : Bool :=
  c == '$' || c == '#' || c == '+' || pyRegexSpace c || c.toNat ≤ 0x19

/-- `MQTT_TOPIC_REGEX.findall(topic)` is non-empty exactly when some
character of the topic is in the forbidden class. -/
def topicHasForbidden (t : String) : Bool :=
  t.data.any forbiddenChar

/-- The check `validate_device_actions` performs on one action: the
first error message, or `none` when the action is acceptable. -/
def actionCheck (a : Action) : Option String :=
  match List.lookup "topic" a with
  | none => some "Device action missing required topic field"
  | some t =>
    if topicHasForbidden t then
      some "Topic must not contain forbidden characters"
    else if maxTopicLength < t.length then
      some "Topic length exceeds maximum allowed limit"
    else none

/-- `SceneDevice.validate_device_actions`: raise on the first action
that fails `actionCheck`, otherwise return the list unchanged. -/
def validateDeviceActions (value : List Action) : Except String (List Action) :=
  match value.findSome? actionCheck with
  | some e => .error e
  | none => .ok value

/-- Python truthiness of a JSON-like value. -/
def Json.isFalsy : Json → Bool
  | .null => true
  | .bool b => !b
  | .num n => n == 0
  | .str s => s == ""
  | .arr xs => xs.isEmpty
  | .obj kvs => kvs.isEmpty

/-- Python truthiness of `attrs.get("device_actions")` (absent maps to
`None`, hence falsy). -/
def AttrVal.isFalsy : AttrVal → Bool
  | .absent => true
  | .pystr s _ => s == ""
  | .pyval j => j.isFalsy

/-- Pydantic coercion of one parsed element to `dict[str, str]`: every
value must already be a string (pydantic v2 does not coerce to `str`). -/
def jsonToStrPairs : List (String × Json) → Option (List (String × String))
  | [] => some []
  | (k, Json.str s) :: rest => (jsonToStrPairs rest).map (fun r => (k, s) :: r)
  | _ => none

/-- Pydantic coercion of one list element to a `dict[str, str]`. -/
def jsonToAction : Json → Option Action
  | .obj kvs => jsonToStrPairs kvs
  | _ => none

/-- Pydantic coercion of the parsed list to `list[dict[str, str]]`. -/
def jsonToActions : List Json → Option (List Action)
  | [] => some []
  | x :: xs =>
    match jsonToAction x, jsonToActions xs with
    | some a, some rest => some (a :: rest)
    | _, _ => none

/-- `SceneDevice.from_global_device`: falsy-attribute check, JSON-string
parsing, list check, emptiness check, pydantic element coercion and the
topic validator, in the order of the source. -/
def fromGlobalDevice (g : GlobalDevice) : Except String SceneDevice :=
  if g.deviceActions.isFalsy then
    .error "missing required device_actions in device_attributes"
  else
    let parsed : Except String Json :=
      match g.deviceActions with
      | .absent => .error "missing required device_actions in device_attributes"
      | .pystr _ loads =>
        match loads with
        | none => .error "invalid JSON in device_actions"
        | some j => .ok j
      | .pyval j => .ok j
    match parsed with
    | .error e => .error e
    | .ok j =>
      match j with
      | .arr xs =>
        if xs.isEmpty then .error "device_actions list is empty"
        else
          match jsonToActions xs with
          | none => .error "device_actions must be a list of string-to-string dicts"
          | some acts =>
            match validateDeviceActions acts with
            | .error e => .error e
            | .ok acts => .ok ⟨g.name, g.room, acts⟩
      | _ => .error "device_actions must be a list"

/-- The room filter of `get_scenes`: `continue` exactly when the filter
list is truthy (present and non-empty), the device has a room, and the
room name is not a (case-sensitive) member of the list. -/
def roomFilterSkips (rooms : Option (List String)) (g : GlobalDevice) : Bool :=
  match rooms with
  | none => false
  | some rs =>
    match g.room with
    | none => false
    | some rn => !rs.isEmpty && !(rs.contains rn)

/-- The name filter of `get_scenes`: applied whenever the filter is not
`None` (even when empty); compares lowercased names. -/
def nameFilterSkips (sceneNames : Option (List String)) (g : GlobalDevice) : Bool :=
  match sceneNames with
  | none => false
  | some ns => !((ns.map String.toLower).contains g.name.toLower)

/-- One iteration of the `get_scenes` loop: `none` when the record is
skipped by a filter or its conversion raises, otherwise the converted
scene. -/
def sceneOf (rooms sceneNames : Option (List String)) (g : GlobalDevice) :
    Option SceneDevice :=
  if roomFilterSkips rooms g then none
  else if nameFilterSkips sceneNames g then none
  else (fromGlobalDevice g).toOption

/-- `SceneSkill.get_scenes`: filter by room, filter by name, then
attempt conversion; a record whose conversion raises `ValueError` is
logged and skipped. -/
def getScenes (rooms sceneNames : Option (List String))
    (devices : List GlobalDevice) : List SceneDevice :=
  devices.filterMap (sceneOf rooms sceneNames)

/-- An intent type; the code only distinguishes `SCENE_APPLY` from
everything else. -/
inductive IntentType where
  | scene_apply : IntentType
  | other : IntentType
deriving DecidableEq

/-- An extracted entity: its normalized string value and the
`device_type` entry of its metadata, when present. -/
structure Entity where
  normalized_value : String
  deviceType : Option String

/-- A classified intent, projected to what the skill reads: the intent
type and the `room` and `device` entity lists of the entity mapping. -/
structure ClassifiedIntent where
  intent_type : IntentType
  roomEntities : List Entity
  deviceEntities : List Entity

/-- The client request, projected to the originating room. -/
structure ClientRequest where
  room : String

/-- An inbound intent request. -/
structure IntentRequest where
  classified_intent : ClassifiedIntent
  client_request : ClientRequest

/-- Total number of device actions across targets, as counted by
`_render_response`. -/
def deviceCount (targets : List SceneDevice) : Nat :=
  (targets.map (fun s => s.device_actions.length)).sum

/-- An "and"-joined name list. -/
def andJoin : List String → String
  | [] => ""
  | [x] => x
  | x :: xs => x ++ " and " ++ andJoin xs

/-- Modelled from the spec: the response template file `apply.j2` is not
part of the sources; per the spec it selects singular phrasing for
exactly one distinct scene name and plural phrasing with an and-joined
name list otherwise, and reports the device count. -/
def renderApply (p : Parameters) (count : Nat) : String :=
  match (p.targets.map (fun s => s.name)).eraseDups with
  | [n] => "Activated the scene " ++ n ++ " affecting " ++ toString count ++ " devices."
  | ns => "Activated the scenes " ++ andJoin ns ++ " affecting " ++ toString count ++ " devices."

/-- `SceneSkill._render_response`: look the template up in
`intent_to_template` (populated only for `SCENE_APPLY`), fall back to a
fixed apology when absent, otherwise render with the device count. -/
def renderResponse (intentType : IntentType) (p : Parameters) : String :=
  match intentType with
  | .scene_apply => renderApply p (deviceCount p.targets)
  | .other => "Sorry, I couldn\x27t process your request."

/-- One iteration of the inner `_send_mqtt_commands` loop:
`topic = action.get("topic")`, `payload = action.get("payload", "ON")`,
publish at QoS 1 when the topic is truthy, skip (with a warning)
otherwise. -/
def publishOf (a : Action) : Option Publish :=
  match List.lookup "topic" a with
  | none => none
  | some t =>
    if t == "" then none
    else some ⟨t, (List.lookup "payload" a).getD "ON", 1⟩

/-- `SceneSkill._send_mqtt_commands`: per target scene, per device
action, publish `(topic, payload or "ON")` at QoS 1; an action with a
falsy (missing or empty) topic is skipped with a warning. -/
def sendMqttCommands (p : Parameters) : List Publish :=
  p.targets.flatMap (fun scene => scene.device_actions.filterMap publishOf)

/-- `SceneSkill.find_parameters`: rooms come from the `room` entities or
default to the current room; scene names are the `device` entities whose
metadata marks them as scenes; for `SCENE_APPLY` the targets are
resolved via `get_scenes`, each filter passed only when the matching
entity list is non-empty. -/
def findParameters (intentType : IntentType) (ci : ClassifiedIntent)
    (currentRoom : String) (devices : List GlobalDevice) : Parameters :=
  let rooms :=
    if ci.roomEntities.isEmpty then [currentRoom]
    else ci.roomEntities.map (fun e => e.normalized_value)
  let sceneNames :=
    if ci.deviceEntities.isEmpty then []
    else (ci.deviceEntities.filter (fun e => e.deviceType == some "scene")).map
      (fun e => e.normalized_value)
  let targets :=
    if intentType == .scene_apply then
      getScenes (if ci.roomEntities.isEmpty then none else some rooms)
        (if ci.deviceEntities.isEmpty then none else some sceneNames) devices
    else []
  { scene_names := sceneNames, targets := targets, rooms := rooms }

/-- `SceneSkill._handle_scene_apply`, observed through the response
texts it sends and the publishes it issues. -/
def handleSceneApply (ir : IntentRequest) (devices : List GlobalDevice) :
    List String × List Publish :=
  let params := findParameters .scene_apply ir.classified_intent
    ir.client_request.room devices
  if params.targets.isEmpty then
    (["I couldn\x27t find any scenes to activate."], [])
  else
    ([renderResponse .scene_apply params], sendMqttCommands params)

/-- `SceneSkill.process_request`: route `SCENE_APPLY` to its handler,
answer anything else with the generic fallback. -/
def processRequest (ir : IntentRequest) (devices : List GlobalDevice) :
    List String × List Publish :=
  if ir.classified_intent.intent_type == .scene_apply then
    handleSceneApply ir devices
  else
    (["I\x27m not sure how to handle that request."], [])

/-- The JSON value of one action dictionary, used to state round-trip
properties about string-encoded `device_actions`. -/
def actionToJson (a : Action) : Json :=
  .obj (a.map (fun kv => (kv.1, Json.str kv.2)))

/-- The JSON value of an action list. -/
def actionsToJson (xs : List Action) : Json :=
  .arr (xs.map actionToJson)

/-- The forbidden-character list exactly as the spec words it (§3):
`+`, `#`, any whitespace, or an ASCII control character 0 to 0x19 —
without the `$` the regex additionally rejects. -/
def specForbiddenChar (c : Char) : Bool :=
  c == '#' || c == '+' || pyRegexSpace c || c.toNat ≤ 0x19

/-- A device action violating the spec's §4.1 step-4 rule, minus the
emptiness requirement: the `topic` key is absent, or the topic contains
a spec-forbidden character, or it exceeds the maximum length. -/
def specTopicViolation (a : Action) : Bool :=
  match List.lookup "topic" a with
  | none => true
  | some t => t.data.any specForbiddenChar || decide (maxTopicLength < t.length)

/-! Helper lemmas shared by the claim theorems. -/

lemma jsonToStrPairs_map (a : Action) :
    jsonToStrPairs (a.map (fun kv => (kv.1, Json.str kv.2))) = some a := by
  induction a with
  | nil => rfl
  | cons kv rest ih =>
    obtain ⟨k, v⟩ := kv
    simp [jsonToStrPairs, ih]

lemma jsonToAction_actionToJson (a : Action) :
    jsonToAction (actionToJson a) = some a := by
  simp [jsonToAction, actionToJson, jsonToStrPairs_map]

lemma jsonToActions_map (xs : List Action) :
    jsonToActions (xs.map actionToJson) = some xs := by
  induction xs with
  | nil => rfl
  | cons a rest ih =>
    simp [jsonToActions, jsonToAction_actionToJson, ih]

lemma getScenes_append_none (rooms names : Option (List String))
    (l1 l2 : List GlobalDevice) (g : GlobalDevice)
    (h : sceneOf rooms names g = none) :
    getScenes rooms names (l1 ++ g :: l2) =
      getScenes rooms names l1 ++ getScenes rooms names l2 := by
  simp [getScenes, List.filterMap_append, List.filterMap_cons, h]

lemma sceneOf_eq_none_of_failed (rooms names : Option (List String))
    (g : GlobalDevice) (h : (fromGlobalDevice g).toOption = none) :
    sceneOf rooms names g = none := by
  unfold sceneOf
  split
  · rfl
  · split
    · rfl
    · exact h

lemma pyval_actions_not_falsy (xs : List Action) (hx : xs ≠ []) :
    (AttrVal.pyval (actionsToJson xs)).isFalsy = false := by
  obtain ⟨y, ys, rfl⟩ := List.exists_cons_of_ne_nil hx
  rfl

lemma fromGlobalDevice_of_loads (name : String) (room : Option String)
    (attr : AttrVal) (xs : List Action)
    (hfalsy : attr.isFalsy = false) (hx : xs ≠ [])
    (hparse : (match attr with
      | .absent => none
      | .pystr _ loads => loads
      | .pyval j => some j) = some (actionsToJson xs)) :
    fromGlobalDevice ⟨name, room, attr⟩ =
      match validateDeviceActions xs with
      | .error e => .error e
      | .ok acts => .ok ⟨name, room, acts⟩ := by
  obtain ⟨y, ys, rfl⟩ := List.exists_cons_of_ne_nil hx
  cases attr with
  | absent => exact absurd hparse (by simp)
  | pystr s loads =>
    cases loads with
    | none => exact absurd hparse (by simp)
    | some j =>
      obtain rfl : j = actionsToJson (y :: ys) := by simpa using hparse
      have hs : (s == "") = false := by simpa [AttrVal.isFalsy] using hfalsy
      simp only [fromGlobalDevice, AttrVal.isFalsy, hs, actionsToJson, List.map_cons,
        Bool.false_eq_true, if_false, List.isEmpty_cons]
      rw [← List.map_cons actionToJson y ys, jsonToActions_map]
  | pyval j =>
    obtain rfl : j = actionsToJson (y :: ys) := by simpa using hparse
    simp only [fromGlobalDevice, AttrVal.isFalsy, Json.isFalsy, actionsToJson,
      List.map_cons, Bool.false_eq_true, if_false, List.isEmpty_cons]
    rw [← List.map_cons actionToJson y ys, jsonToActions_map]

lemma validateDeviceActions_error_of_mem {xs : List Action} {a : Action}
    (ha : a ∈ xs) {e : String} (he : actionCheck a = some e) :
    ∃ e2, validateDeviceActions xs = .error e2 := by
  unfold validateDeviceActions
  cases hfind : xs.findSome? actionCheck with
  | some e2 => exact ⟨e2, rfl⟩
  | none =>
    have := List.findSome?_eq_none_iff.mp hfind a ha
    rw [he] at this
    cases this

lemma specForbidden_sub (c : Char) (h : specForbiddenChar c = true) :
    forbiddenChar c = true := by
  simp only [specForbiddenChar, Bool.or_eq_true] at h
  simp only [forbiddenChar, Bool.or_eq_true]
  tauto

lemma topicHasForbidden_of_spec (t : String)
    (h : t.data.any specForbiddenChar = true) :
    topicHasForbidden t = true := by
  simp only [topicHasForbidden, List.any_eq_true] at h ⊢
  obtain ⟨c, hc, hspec⟩ := h
  exact ⟨c, hc, specForbidden_sub c hspec⟩

lemma actionCheck_of_spec (a : Action) (h : specTopicViolation a = true) :
    ∃ e, actionCheck a = some e := by
  unfold specTopicViolation at h
  unfold actionCheck
  cases hl : List.lookup "topic" a with
  | none => exact ⟨_, rfl⟩
  | some t =>
    rw [hl] at h
    simp only [Bool.or_eq_true, decide_eq_true_eq] at h
    by_cases hf : topicHasForbidden t = true
    · simp [hf]
    · rcases h with hany | hlen
      · exact absurd (topicHasForbidden_of_spec t hany) hf
      · simp [hf, hlen]

lemma actionCheck_of_dollar (a : Action)
    (h : ((List.lookup "topic" a).getD "").data.any (fun c => c == '$') = true) :
    ∃ e, actionCheck a = some e := by
  cases hl : List.lookup "topic" a with
  | none =>
    rw [hl] at h
    exact absurd h (by decide)
  | some t =>
    rw [hl] at h
    simp only [Option.getD_some] at h
    have hforb : topicHasForbidden t = true := by
      simp only [topicHasForbidden, List.any_eq_true] at h ⊢
      obtain ⟨c, hc, hd⟩ := h
      refine ⟨c, hc, ?_⟩
      have hc2 : c = '$' := by simpa using hd
      subst hc2
      rfl
    unfold actionCheck
    rw [hl]
    simp [hforb]

lemma conversion_fails_of_bad (name : String) (room : Option String)
    (xs : List Action) (hbad : ∃ a ∈ xs, ∃ e, actionCheck a = some e) :
    (fromGlobalDevice ⟨name, room, .pyval (actionsToJson xs)⟩).toOption = none := by
  obtain ⟨a, ha, e, he⟩ := hbad
  have hx : xs ≠ [] := by
    rintro rfl
    cases ha
  obtain ⟨e2, hv⟩ := validateDeviceActions_error_of_mem ha he
  rw [fromGlobalDevice_of_loads name room _ xs (pyval_actions_not_falsy xs hx) hx rfl,
    hv]
  rfl

lemma filterMap_publishOf_eq_map (acts : List Action)
    (h : ∀ a ∈ acts, ((List.lookup "topic" a).getD "") ≠ "") :
    acts.filterMap publishOf = acts.map (fun a =>
      (⟨(List.lookup "topic" a).getD "", (List.lookup "payload" a).getD "ON", 1⟩ :
        Publish)) := by
  induction acts with
  | nil => rfl
  | cons a rest ih =>
    have ha := h a (List.mem_cons_self a rest)
    have hrest := fun b hb => h b (List.mem_cons_of_mem a hb)
    cases hl : List.lookup "topic" a with
    | none =>
      rw [hl] at ha
      simp at ha
    | some t =>
      rw [hl] at ha
      simp only [Option.getD_some] at ha
      have ht : (t == "") = false := by simpa using ha
      simp [List.filterMap_cons, List.map_cons, publishOf, hl, ht, ih hrest]

lemma flatMap_publishes (ts : List SceneDevice)
    (h : ∀ s ∈ ts, ∀ a ∈ s.device_actions, ((List.lookup "topic" a).getD "") ≠ "") :
    ts.flatMap (fun scene => scene.device_actions.filterMap publishOf) =
      ts.flatMap (fun s => s.device_actions.map (fun a =>
        (⟨(List.lookup "topic" a).getD "", (List.lookup "payload" a).getD "ON", 1⟩ :
          Publish))) := by
  induction ts with
  | nil => rfl
  | cons s rest ih =>
    have hs := h s (List.mem_cons_self s rest)
    have hrest := fun s2 hs2 => h s2 (List.mem_cons_of_mem s hs2)
    simp only [List.flatMap_cons, filterMap_publishOf_eq_map s.device_actions hs,
      ih hrest]

/-- C1: when every device action of every resolved target has a present,
non-empty topic, the dispatcher issues exactly one QoS-1 (acknowledged,
at-least-once) publish per device action — iterating targets in input
order and each target's `device_actions` in order, with the payload
defaulting to "ON" when absent — with no deduplication, reordering or
coalescing. -/
theorem claim_C1 (p : Parameters)
    (h : ∀ s ∈ p.targets, ∀ a ∈ s.device_actions,
      ((List.lookup "topic" a).getD "") ≠ "") :
    sendMqttCommands p = p.targets.flatMap (fun s => s.device_actions.map (fun a =>
      (⟨(List.lookup "topic" a).getD "", (List.lookup "payload" a).getD "ON", 1⟩ :
        Publish))) := by
  unfold sendMqttCommands
  exact flatMap_publishes p.targets h

/-- Witness for C1: the spec's own example, one scene with actions
`[("t1","ON"), ("t2","50")]`, yields exactly those two publishes in
order. -/
theorem claim_C1_witness :
    (∀ s ∈ ([⟨"romantic", some "living room",
        [[("topic", "t1"), ("payload", "ON")],
         [("topic", "t2"), ("payload", "50")]]⟩] : List SceneDevice),
      ∀ a ∈ s.device_actions, ((List.lookup "topic" a).getD "") ≠ "") ∧
    sendMqttCommands ⟨["romantic"], [⟨"romantic", some "living room",
        [[("topic", "t1"), ("payload", "ON")],
         [("topic", "t2"), ("payload", "50")]]⟩], []⟩ =
      [⟨"t1", "ON", 1⟩, ⟨"t2", "50", 1⟩] := by
  refine ⟨by decide, ?_⟩
  rw [claim_C1 _ (by decide)]
  rfl

/-- C6: when resolution yields zero targets for a scene-apply intent,
the handler answers with the fixed "couldn't find any scenes" response
and issues zero publishes; the dispatcher is never invoked. -/
theorem claim_C6 (ir : IntentRequest) (devices : List GlobalDevice)
    (h : (findParameters .scene_apply ir.classified_intent
      ir.client_request.room devices).targets = []) :
    handleSceneApply ir devices =
      (["I couldn\x27t find any scenes to activate."], []) := by
  simp [handleSceneApply, h]

/-- Witness for C6: a scene-apply request over an empty registry
snapshot resolves no targets and gets the fixed response with zero
publishes. -/
theorem claim_C6_witness :
    (findParameters .scene_apply (⟨.scene_apply, [], []⟩ : ClassifiedIntent)
      "kitchen" []).targets = [] ∧
    handleSceneApply ⟨⟨.scene_apply, [], []⟩, ⟨"kitchen"⟩⟩ [] =
      (["I couldn\x27t find any scenes to activate."], []) :=
  ⟨rfl, claim_C6 ⟨⟨.scene_apply, [], []⟩, ⟨"kitchen"⟩⟩ [] rfl⟩

/-- C7: every inbound intent request — any intent type, any entities,
any snapshot — produces exactly one response message: never zero and
never more than one. -/
theorem claim_C7 (ir : IntentRequest) (devices : List GlobalDevice) :
    (processRequest ir devices).1.length = 1 := by
  unfold processRequest handleSceneApply
  split
  · dsimp only
    split
    · rfl
    · rfl
  · rfl

/-- C9: a device action whose topic is the empty string passes topic
validation, its record converts and is included in the resolution
result, the action is counted in the rendered device count, yet the
dispatcher publishes nothing for it — so the confirmation can report
more affected devices than messages published. -/
theorem claim_C9 (name : String) (room : Option String) :
    validateDeviceActions [[("topic", "")]] = .ok [[("topic", "")]] ∧
    fromGlobalDevice ⟨name, room, .pyval (.arr [.obj [("topic", Json.str "")]])⟩ =
      .ok ⟨name, room, [[("topic", "")]]⟩ ∧
    getScenes none none [⟨name, room, .pyval (.arr [.obj [("topic", Json.str "")]])⟩] =
      [⟨name, room, [[("topic", "")]]⟩] ∧
    deviceCount [⟨name, room, [[("topic", "")]]⟩] = 1 ∧
    sendMqttCommands ⟨[], [⟨name, room, [[("topic", "")]]⟩], []⟩ = [] :=
  ⟨rfl, rfl, rfl, rfl, rfl⟩

/-- Counterexample to C2 as stated: with the non-empty rooms filter
`["kitchen"]`, a record whose room is absent is not skipped — it
converts and appears in the result. -/
theorem claim_C2_cex :
    (⟨"no room scene", none,
        .pyval (.arr [.obj [("topic", Json.str "light/1")]])⟩ : GlobalDevice).room =
      none ∧
    getScenes (some ["kitchen"]) none
      [⟨"no room scene", none, .pyval (.arr [.obj [("topic", Json.str "light/1")]])⟩] ≠
      [] := by
  refine ⟨rfl, ?_⟩
  rw [show getScenes (some ["kitchen"]) none
      [⟨"no room scene", none, .pyval (.arr [.obj [("topic", Json.str "light/1")]])⟩] =
      [⟨"no room scene", none, [[("topic", "light/1")]]⟩] from rfl]
  exact List.cons_ne_nil _ _

/-- C2 (amended): with a provided non-empty rooms filter, the resolver
skips each record whose room is present and not a case-sensitive member
of the filter; a record whose room is absent is not skipped by the room
filter. -/
theorem claim_C2 (rooms : List String) (names : Option (List String))
    (l1 l2 : List GlobalDevice) (g g2 : GlobalDevice) (rn : String)
    (h1 : rooms ≠ []) (h2 : g.room = some rn) (h3 : rn ∉ rooms)
    (h4 : g2.room = none) :
    getScenes (some rooms) names (l1 ++ g :: l2) =
      getScenes (some rooms) names l1 ++ getScenes (some rooms) names l2 ∧
    roomFilterSkips (some rooms) g2 = false := by
  constructor
  · apply getScenes_append_none
    have hskip : roomFilterSkips (some rooms) g = true := by
      unfold roomFilterSkips
      rw [h2]
      cases rooms with
      | nil => exact absurd rfl h1
      | cons r rs =>
        have hc : ((r :: rs).contains rn) = false := by
          cases hc2 : (r :: rs).contains rn
          · rfl
          · exact absurd (List.elem_iff.mp hc2) h3
        show (!(r :: rs).isEmpty && !((r :: rs).contains rn)) = true
        rw [hc]
        simp
    simp [sceneOf, hskip]
  · simp [roomFilterSkips, h4]

/-- Witness for C2 (amended): `"bedroom" ∉ ["kitchen"]` excludes that
record, while a roomless record passes the room filter. -/
theorem claim_C2_witness :
    (["kitchen"] : List String) ≠ [] ∧
    (⟨"s1", some "bedroom",
        .pyval (.arr [.obj [("topic", Json.str "t")]])⟩ : GlobalDevice).room =
      some "bedroom" ∧
    "bedroom" ∉ (["kitchen"] : List String) ∧
    (⟨"s2", none, .absent⟩ : GlobalDevice).room = none ∧
    (getScenes (some ["kitchen"]) none
        ([] ++ (⟨"s1", some "bedroom",
          .pyval (.arr [.obj [("topic", Json.str "t")]])⟩ : GlobalDevice) :: []) =
      getScenes (some ["kitchen"]) none [] ++ getScenes (some ["kitchen"]) none [] ∧
    roomFilterSkips (some ["kitchen"]) ⟨"s2", none, .absent⟩ = false) :=
  ⟨by decide, rfl, by decide, rfl,
    claim_C2 ["kitchen"] none [] [] ⟨"s1", some "bedroom",
        .pyval (.arr [.obj [("topic", Json.str "t")]])⟩ ⟨"s2", none, .absent⟩
      "bedroom" (by decide) rfl (by decide) rfl⟩

/-- Counterexample to C3 as stated: an action whose topic is the empty
string does not fail validation — the record converts and appears in
the resolution result rather than being excluded. -/
theorem claim_C3_cex :
    fromGlobalDevice ⟨"s", none, .pyval (.arr [.obj [("topic", Json.str "")]])⟩ =
      .ok ⟨"s", none, [[("topic", "")]]⟩ ∧
    getScenes none none
      [⟨"s", none, .pyval (.arr [.obj [("topic", Json.str "")]])⟩] ≠ [] := by
  refine ⟨rfl, ?_⟩
  rw [show getScenes none none
      [⟨"s", none, .pyval (.arr [.obj [("topic", Json.str "")]])⟩] =
      [⟨"s", none, [[("topic", "")]]⟩] from rfl]
  exact List.cons_ne_nil _ _

/-- C3 (amended): if any device-action entry lacks a `topic` key or has
a topic that contains `+`, `#`, whitespace or a control character
(0–0x19), or exceeds 128 characters, then conversion of the entire
record fails and the record is excluded from the resolution result,
even when its other actions are valid; an empty topic, however, passes
validation. -/
theorem claim_C3 (name : String) (room : Option String) (xs : List Action)
    (rooms names : Option (List String)) (l1 l2 : List GlobalDevice)
    (h : ∃ a ∈ xs, specTopicViolation a = true) :
    (fromGlobalDevice ⟨name, room, .pyval (actionsToJson xs)⟩).toOption = none ∧
    getScenes rooms names (l1 ++ ⟨name, room, .pyval (actionsToJson xs)⟩ :: l2) =
      getScenes rooms names l1 ++ getScenes rooms names l2 := by
  obtain ⟨a, ha, hv⟩ := h
  have hbad : ∃ a2 ∈ xs, ∃ e, actionCheck a2 = some e :=
    ⟨a, ha, actionCheck_of_spec a hv⟩
  have hfail := conversion_fails_of_bad name room xs hbad
  exact ⟨hfail,
    getScenes_append_none _ _ _ _ _ (sceneOf_eq_none_of_failed _ _ _ hfail)⟩

/-- Witness for C3 (amended): the spec's example topic `"a/b c"`
(contains whitespace) makes the whole record fail even though its
second action is valid. -/
theorem claim_C3_witness :
    (∃ a ∈ ([[("topic", "a/b c")], [("topic", "t2")]] : List Action),
      specTopicViolation a = true) ∧
    ((fromGlobalDevice ⟨"bad", none,
        .pyval (actionsToJson [[("topic", "a/b c")], [("topic", "t2")]])⟩).toOption =
      none ∧
    getScenes none none ([] ++ (⟨"bad", none,
        .pyval (actionsToJson [[("topic", "a/b c")], [("topic", "t2")]])⟩ :
          GlobalDevice) :: []) =
      getScenes none none [] ++ getScenes none none []) :=
  ⟨by decide, claim_C3 "bad" none [[("topic", "a/b c")], [("topic", "t2")]]
    none none [] [] (by decide)⟩

/-- Counterexample to C4 as stated: a record that converts fine and is a
candidate without filters is excluded when the names filter is provided
but empty, contradicting "when the names filter is omitted or empty,
every room-matching record is a candidate". -/
theorem claim_C4_cex :
    getScenes none (some [])
      [⟨"romantic", none, .pyval (.arr [.obj [("topic", Json.str "light/1")]])⟩] =
      [] ∧
    getScenes none none
      [⟨"romantic", none, .pyval (.arr [.obj [("topic", Json.str "light/1")]])⟩] ≠
      [] := by
  refine ⟨rfl, ?_⟩
  rw [show getScenes none none
      [⟨"romantic", none, .pyval (.arr [.obj [("topic", Json.str "light/1")]])⟩] =
      [⟨"romantic", none, [[("topic", "light/1")]]⟩] from rfl]
  exact List.cons_ne_nil _ _

/-- C4 (amended): when the names filter is provided, a record survives
the name filter exactly when its lowercased name equals the lowercase
normalization of some entry; when the filter is omitted (`None`), every
room-matching record is a candidate; but when it is provided and empty,
no record survives at all. -/
theorem claim_C4 (ns : List String) (g : GlobalDevice)
    (rooms : Option (List String)) (devs : List GlobalDevice) :
    (nameFilterSkips (some ns) g = false ↔
      g.name.toLower ∈ ns.map String.toLower) ∧
    nameFilterSkips none g = false ∧
    getScenes rooms (some []) devs = [] := by
  refine ⟨?_, rfl, ?_⟩
  · simp [nameFilterSkips, List.elem_iff]
  · rw [getScenes, List.filterMap_eq_nil_iff]
    intro g2 _
    have hn : nameFilterSkips (some []) g2 = true := rfl
    simp [sceneOf, hn]

/-- C5: a record that fails conversion is excluded from the result and
does not abort resolution of the other records — resolving a snapshot
with the failing record spliced in yields exactly the resolution of the
records around it. -/
theorem claim_C5 (rooms names : Option (List String)) (l1 l2 : List GlobalDevice)
    (bad : GlobalDevice) (h : (fromGlobalDevice bad).toOption = none) :
    getScenes rooms names (l1 ++ bad :: l2) =
      getScenes rooms names l1 ++ getScenes rooms names l2 :=
  getScenes_append_none _ _ _ _ _ (sceneOf_eq_none_of_failed _ _ _ h)

/-- Witness for C5: a record with an absent `device_actions` attribute
is dropped while its sibling records on both sides still resolve. -/
theorem claim_C5_witness :
    (fromGlobalDevice ⟨"broken", none, .absent⟩).toOption = none ∧
    getScenes none none
      ([⟨"a", none, .pyval (.arr [.obj [("topic", Json.str "t1")]])⟩] ++
        (⟨"broken", none, .absent⟩ : GlobalDevice) ::
        [⟨"b", none, .pyval (.arr [.obj [("topic", Json.str "t2")]])⟩]) =
      getScenes none none [⟨"a", none, .pyval (.arr [.obj [("topic", Json.str "t1")]])⟩] ++
      getScenes none none [⟨"b", none, .pyval (.arr [.obj [("topic", Json.str "t2")]])⟩] :=
  ⟨rfl, claim_C5 none none
    [⟨"a", none, .pyval (.arr [.obj [("topic", Json.str "t1")]])⟩]
    [⟨"b", none, .pyval (.arr [.obj [("topic", Json.str "t2")]])⟩]
    ⟨"broken", none, .absent⟩ rfl⟩

/-- C8: for every valid action list, converting a record whose
`device_actions` attribute is the JSON-encoded string of the list
yields the same SceneDevice — same name, room and structured action
list — as converting the identical record carrying the pre-parsed
list. -/
theorem claim_C8 (name : String) (room : Option String) (s : String)
    (xs : List Action) (hs : s ≠ "") (hx : xs ≠ [])
    (hv : validateDeviceActions xs = .ok xs) :
    fromGlobalDevice ⟨name, room, .pystr s (some (actionsToJson xs))⟩ =
      .ok ⟨name, room, xs⟩ ∧
    fromGlobalDevice ⟨name, room, .pyval (actionsToJson xs)⟩ =
      .ok ⟨name, room, xs⟩ := by
  have hfal : (AttrVal.pystr s (some (actionsToJson xs))).isFalsy = false := by
    simp [AttrVal.isFalsy, hs]
  constructor
  · rw [fromGlobalDevice_of_loads name room _ xs hfal hx rfl, hv]
  · rw [fromGlobalDevice_of_loads name room _ xs (pyval_actions_not_falsy xs hx) hx
      rfl, hv]

/-- Witness for C8: the JSON text of one two-key action round-trips to
the same SceneDevice as the pre-parsed list. -/
theorem claim_C8_witness :
    ("[\x7b\"topic\": \"light/1\", \"payload\": \"ON\"\x7d]" : String) ≠ "" ∧
    ([[("topic", "light/1"), ("payload", "ON")]] : List Action) ≠ [] ∧
    validateDeviceActions [[("topic", "light/1"), ("payload", "ON")]] =
      .ok [[("topic", "light/1"), ("payload", "ON")]] ∧
    (fromGlobalDevice ⟨"romantic", some "living room",
        .pystr "[\x7b\"topic\": \"light/1\", \"payload\": \"ON\"\x7d]"
          (some (actionsToJson [[("topic", "light/1"), ("payload", "ON")]]))⟩ =
      .ok ⟨"romantic", some "living room",
        [[("topic", "light/1"), ("payload", "ON")]]⟩ ∧
    fromGlobalDevice ⟨"romantic", some "living room",
        .pyval (actionsToJson [[("topic", "light/1"), ("payload", "ON")]])⟩ =
      .ok ⟨"romantic", some "living room",
        [[("topic", "light/1"), ("payload", "ON")]]⟩) :=
  ⟨by decide, by decide, rfl,
    claim_C8 "romantic" (some "living room")
      "[\x7b\"topic\": \"light/1\", \"payload\": \"ON\"\x7d]"
      [[("topic", "light/1"), ("payload", "ON")]] (by decide) (by decide) rfl⟩

/-- C10: the validation regex also forbids `$`, so every record (in the
pre-parsed list form) containing an action whose topic includes `$`
fails conversion and is excluded from resolution, although `$` is not
in the spec's forbidden-character list. -/
theorem claim_C10 (name : String) (room : Option String) (xs : List Action)
    (rooms names : Option (List String)) (l1 l2 : List GlobalDevice)
    (h : ∃ a ∈ xs,
      ((List.lookup "topic" a).getD "").data.any (fun c => c == '$') = true) :
    (fromGlobalDevice ⟨name, room, .pyval (actionsToJson xs)⟩).toOption = none ∧
    getScenes rooms names (l1 ++ ⟨name, room, .pyval (actionsToJson xs)⟩ :: l2) =
      getScenes rooms names l1 ++ getScenes rooms names l2 := by
  obtain ⟨a, ha, hd⟩ := h
  have hbad : ∃ a2 ∈ xs, ∃ e, actionCheck a2 = some e :=
    ⟨a, ha, actionCheck_of_dollar a hd⟩
  have hfail := conversion_fails_of_bad name room xs hbad
  exact ⟨hfail,
    getScenes_append_none _ _ _ _ _ (sceneOf_eq_none_of_failed _ _ _ hfail)⟩

/-- Witness for C10: the topic `"a$b"` makes its record fail conversion
and vanish from resolution. -/
theorem claim_C10_witness :
    (∃ a ∈ ([[("topic", "a$b")]] : List Action),
      ((List.lookup "topic" a).getD "").data.any (fun c => c == '$') = true) ∧
    ((fromGlobalDevice ⟨"dollar", none,
        .pyval (actionsToJson [[("topic", "a$b")]])⟩).toOption = none ∧
    getScenes none none ([] ++ (⟨"dollar", none,
        .pyval (actionsToJson [[("topic", "a$b")]])⟩ : GlobalDevice) :: []) =
      getScenes none none [] ++ getScenes none none []) :=
  ⟨by decide, claim_C10 "dollar" none [[("topic", "a$b")]] none none [] []
    (by decide)⟩

end SceneSkill
